import Mathlib

/-!
Verification of the server bootstrap in `src/server/src/server/main.py`.

The bootstrap is:

  def main():
      cherrypy.config.update({'server.socket_host': '0.0.0.0'})
      app = Root()
      app.portfolio = Portfolio()
      cherrypy.tree.mount(app, '/', SETTINGS["server"]["app_config"])
      cherrypy.engine.start()
      cherrypy.engine.block()

We embed `main` as a deterministic interpreter `pyMain : Env → RunResult`.
`Env` describes everything external to the function body: the contents of
the `SETTINGS` mapping (imported from the `.settings` module, not part of
the bootstrap file), the pre-existing global cherrypy configuration, and,
for each external call, whether that call raises an exception.  The
interpreter records each attempted step as an event in a trace, threads the
global configuration and the constructed objects through, and stops at the
first raised exception, exactly as straight-line Python with no
try/except does.  Object identity is modelled by fresh numeric ids
(the `Root()` call allocates id 0, the `Portfolio()` call allocates id 1).
-/

namespace Bootstrap

/-- Python exceptions that can arise in `main`: a `KeyError` from a dict
subscript, or an arbitrary error raised by an external call (cherrypy
engine/tree/config or a constructor). -/
inductive Err
  | keyError (k : String)
  | extError (msg : String)
deriving DecidableEq, Repr

/-- The mount-configuration mapping `SETTINGS["server"]["app_config"]` is
opaque to the bootstrap: it is only passed through to `tree.mount`.  We
model it as a token. -/
abbrev MountConfig := Nat

/-- A Python dict with string keys, modelled as an association list;
lookup returns the first binding. -/
abbrev Dict (α : Type) := List (String × α)

/-- `d[k]` as an `Option`: `none` models a `KeyError`. -/
def dictGet {α : Type} (d : Dict α) (k : String) : Option α :=
  match d with
  | [] => none
  | (k', v) :: rest => if k' = k then some v else dictGet rest k

/-- Python `base.update(u)`: every key of `u` is (re)bound to its value in
`u`; all other keys keep their binding from `base`.  With first-binding
lookup, prepending `u` realises exactly that. -/
def dictUpdate {α : Type} (base u : Dict α) : Dict α :=
  u ++ base

/-- The literal argument of the `cherrypy.config.update` call in `main`. -/
def socketHostUpdate : Dict String := [("server.socket_host", "0.0.0.0")]

/-- Modelled from the spec: the `Root` class (defined in `.app.root`, not
in the bootstrap file) "must expose a mutable slot named `portfolio`
settable after construction"; post-construction the composite is in the
"unattached" state (`portfolio` unset).  We record the object's identity
and the id of the attached `Portfolio`, if any. -/
structure RootState where
  id : Nat
  portfolio : Option Nat
deriving DecidableEq, Repr

/-- One attempted step of the bootstrap, as recorded in the run trace. -/
inductive Event
  | configUpdate (upd : Dict String)
  | constructRoot (id : Nat)
  | constructPortfolio (id : Nat)
  | attachPortfolio (rootId : Nat) (pid : Nat)
  | mount (rootId : Nat) (path : String) (cfg : MountConfig)
  | engineStart
  | engineBlock
deriving DecidableEq, Repr

/-- How a run of `main` ends: `blocked` means the calling thread is
suspended indefinitely inside `cherrypy.engine.block()` (the function
never returns); `raised e` means the exception `e` propagated out of
`main` to its caller. -/
inductive Outcome
  | blocked
  | raised (e : Err)
deriving DecidableEq, Repr

/-- Everything external to the body of `main` that determines a run:
the contents of `SETTINGS`, the pre-existing global cherrypy
configuration, and for each external call whether it raises (and what). -/
structure Env where
  settings : Dict (Dict MountConfig)
  initialConfig : Dict String
  configUpdateErr : Option Err
  rootCtorErr : Option Err
  portfolioCtorErr : Option Err
  attachErr : Option Err
  mountErr : Option Err
  startErr : Option Err
  blockErr : Option Err
deriving DecidableEq, Repr

/-- Result of a run of `main`: the trace of attempted steps, how the run
ended, the `Root` object (if its construction was reached), the global
cherrypy configuration after the run, and the list of completed mounts
`(object id, path, mount configuration)`. -/
structure RunResult where
  trace : List Event
  outcome : Outcome
  root : Option RootState
  config : Dict String
  mounts : List (Nat × String × MountConfig)
deriving DecidableEq, Repr

/-- The embedding of `main` from `src/server/src/server/main.py`: the six
statements in source order, each recorded as an attempted event; the first
exception stops the run and becomes the outcome (there is no try/except in
`main`).  The subscripts `SETTINGS["server"]` and `...["app_config"]` are
evaluated (left to right) before `tree.mount` is called, and raise
`KeyError` on a missing key. -/
def pyMain (env : Env) : RunResult :=
  let cfg0 := env.initialConfig
  -- cherrypy.config.update({'server.socket_host': '0.0.0.0'})
  match env.configUpdateErr with
  | some e => ⟨[Event.configUpdate socketHostUpdate], Outcome.raised e, none, cfg0, []⟩
  | none =>
  let cfg1 := dictUpdate cfg0 socketHostUpdate
  let t1 := [Event.configUpdate socketHostUpdate]
  -- app = Root()
  match env.rootCtorErr with
  | some e => ⟨t1 ++ [Event.constructRoot 0], Outcome.raised e, none, cfg1, []⟩
  | none =>
  let rootId := 0
  let t2 := t1 ++ [Event.constructRoot rootId]
  let root0 : RootState := ⟨rootId, none⟩
  -- app.portfolio = Portfolio()   (Portfolio() is evaluated first)
  match env.portfolioCtorErr with
  | some e => ⟨t2 ++ [Event.constructPortfolio 1], Outcome.raised e, some root0, cfg1, []⟩
  | none =>
  let pid := 1
  let t3 := t2 ++ [Event.constructPortfolio pid]
  match env.attachErr with
  | some e => ⟨t3 ++ [Event.attachPortfolio rootId pid], Outcome.raised e, some root0, cfg1, []⟩
  | none =>
  let root1 : RootState := ⟨rootId, some pid⟩
  let t4 := t3 ++ [Event.attachPortfolio rootId pid]
  -- SETTINGS["server"]["app_config"]
  match dictGet env.settings "server" with
  | none => ⟨t4, Outcome.raised (Err.keyError "server"), some root1, cfg1, []⟩
  | some serverCfg =>
  match dictGet serverCfg "app_config" with
  | none => ⟨t4, Outcome.raised (Err.keyError "app_config"), some root1, cfg1, []⟩
  | some appConfig =>
  -- cherrypy.tree.mount(app, '/', SETTINGS["server"]["app_config"])
  match env.mountErr with
  | some e => ⟨t4 ++ [Event.mount rootId "/" appConfig], Outcome.raised e, some root1, cfg1, []⟩
  | none =>
  let t5 := t4 ++ [Event.mount rootId "/" appConfig]
  let mounts := [(rootId, "/", appConfig)]
  -- cherrypy.engine.start()
  match env.startErr with
  | some e => ⟨t5 ++ [Event.engineStart], Outcome.raised e, some root1, cfg1, mounts⟩
  | none =>
  let t6 := t5 ++ [Event.engineStart]
  -- cherrypy.engine.block()
  match env.blockErr with
  | some e => ⟨t6 ++ [Event.engineBlock], Outcome.raised e, some root1, cfg1, mounts⟩
  | none =>
  ⟨t6 ++ [Event.engineBlock], Outcome.blocked, some root1, cfg1, mounts⟩

/-- The trace of a fully successful run, with `cfg` the mount
configuration looked up from the settings. -/
def fullTrace (cfg : MountConfig) : List Event :=
  [Event.configUpdate socketHostUpdate, Event.constructRoot 0,
   Event.constructPortfolio 1, Event.attachPortfolio 0 1,
   Event.mount 0 "/" cfg, Event.engineStart, Event.engineBlock]

/-- `true` exactly on mount events. -/
def isMountEvent : Event → Bool
  | Event.mount _ _ _ => true
  | _ => false

/-- `true` exactly on the engine-start event. -/
def isStartEvent : Event → Bool
  | Event.engineStart => true
  | _ => false

/-- The first exception a run of `main` under `env` encounters, in
statement order, or `none` when every step succeeds.  This is the
propagation policy of straight-line code with no handlers: the first
failing step's own exception, unchanged. -/
def firstFailure (env : Env) : Option Err :=
  match env.configUpdateErr with
  | some e => some e
  | none =>
  match env.rootCtorErr with
  | some e => some e
  | none =>
  match env.portfolioCtorErr with
  | some e => some e
  | none =>
  match env.attachErr with
  | some e => some e
  | none =>
  match dictGet env.settings "server" with
  | none => some (Err.keyError "server")
  | some serverCfg =>
  match dictGet serverCfg "app_config" with
  | none => some (Err.keyError "app_config")
  | some _ =>
  match env.mountErr with
  | some e => some e
  | none =>
  match env.startErr with
  | some e => some e
  | none =>
  match env.blockErr with
  | some e => some e
  | none => none

/-- An environment in which every external call succeeds and `SETTINGS`
holds the required nested keys (mount configuration token `7`). -/
def envOK : Env :=
  ⟨[("server", [("app_config", 7)])], [("server.socket_port", "8080")],
   none, none, none, none, none, none, none⟩

/-- Like `envOK`, but with an empty `SETTINGS` mapping (no "server" key). -/
def envNoKey : Env :=
  ⟨[], [("server.socket_port", "8080")],
   none, none, none, none, none, none, none⟩

/-- Like `envOK`, but `cherrypy.engine.start()` raises (e.g. the port is
already bound). -/
def envStartFail : Env :=
  ⟨[("server", [("app_config", 7)])], [("server.socket_port", "8080")],
   none, none, none, none, none, some (Err.extError "bind failed"), none⟩

/-- C1: if `SETTINGS` lacks the "server" key, or its "server" entry lacks
the "app_config" key, the run raises and `cherrypy.engine.start()` is
never invoked (no engine-start event occurs in the trace), so the failure
happens strictly before any attempt to bind the listening socket. -/
theorem missing_mount_key_fails_before_start (env : Env)
    (h : dictGet env.settings "server" = none ∨
      ∀ s, dictGet env.settings "server" = some s → dictGet s "app_config" = none) :
    (∃ e, (pyMain env).outcome = Outcome.raised e) ∧
      Event.engineStart ∉ (pyMain env).trace := by
  obtain ⟨st, ic, cu, rc, pc, att, me, se, be⟩ := env
  rcases cu with _ | e1
  · rcases rc with _ | e1
    · rcases pc with _ | e1
      · rcases att with _ | e1
        · rcases hs : dictGet st "server" with _ | s
          · simp_all [pyMain]
          · rcases ha : dictGet s "app_config" with _ | c
            · simp_all [pyMain]
            · rcases h with h | h
              · simp_all
              · have := h s hs
                simp_all
        · simp_all [pyMain]
      · simp_all [pyMain]
    · simp_all [pyMain]
  · simp_all [pyMain]

theorem missing_mount_key_fails_before_start_holds :
    dictGet envNoKey.settings "server" = none ∧
      ((∃ e, (pyMain envNoKey).outcome = Outcome.raised e) ∧
        Event.engineStart ∉ (pyMain envNoKey).trace) :=
  ⟨by decide, missing_mount_key_fails_before_start envNoKey (Or.inl (by decide))⟩

/-- C2: in any run that reaches `cherrypy.engine.start()` and in which
that call raises `e`, the error `e` is the outcome surfaced to the caller,
`cherrypy.engine.block()` is never reached, and the start is attempted
exactly once (no retry). -/
theorem start_failure_surfaced_no_block_no_retry (env : Env) (e : Err)
    (hse : env.startErr = some e)
    (hr : Event.engineStart ∈ (pyMain env).trace) :
    (pyMain env).outcome = Outcome.raised e ∧
      Event.engineBlock ∉ (pyMain env).trace ∧
      ((pyMain env).trace.filter isStartEvent).length = 1 := by
  obtain ⟨st, ic, cu, rc, pc, att, me, se, be⟩ := env
  subst hse
  rcases cu with _ | e1
  · rcases rc with _ | e1
    · rcases pc with _ | e1
      · rcases att with _ | e1
        · rcases hs : dictGet st "server" with _ | s
          · simp_all [pyMain]
          · rcases ha : dictGet s "app_config" with _ | c
            · simp_all [pyMain]
            · rcases me with _ | e1
              · simp_all [pyMain, isStartEvent]
              · simp_all [pyMain]
        · simp_all [pyMain]
      · simp_all [pyMain]
    · simp_all [pyMain]
  · simp_all [pyMain]

theorem start_failure_surfaced_no_block_no_retry_holds :
    envStartFail.startErr = some (Err.extError "bind failed") ∧
      Event.engineStart ∈ (pyMain envStartFail).trace ∧
      ((pyMain envStartFail).outcome = Outcome.raised (Err.extError "bind failed") ∧
        Event.engineBlock ∉ (pyMain envStartFail).trace ∧
        ((pyMain envStartFail).trace.filter isStartEvent).length = 1) :=
  ⟨by decide, by decide,
    start_failure_surfaced_no_block_no_retry envStartFail (Err.extError "bind failed")
      (by decide) (by decide)⟩

/-- C5: whenever the `cherrypy.config.update` call succeeds, the global
configuration afterwards maps "server.socket_host" to exactly the string
"0.0.0.0" (the bootstrap binds to all interfaces). -/
theorem socket_host_is_all_interfaces (env : Env)
    (h : env.configUpdateErr = none) :
    dictGet (pyMain env).config "server.socket_host" = some "0.0.0.0" := by
  obtain ⟨st, ic, cu, rc, pc, att, me, se, be⟩ := env
  subst h
  rcases rc with _ | e1
  · rcases pc with _ | e1
    · rcases att with _ | e1
      · rcases hs : dictGet st "server" with _ | s
        · simp_all [pyMain, dictUpdate, socketHostUpdate, dictGet]
        · rcases ha : dictGet s "app_config" with _ | c
          · simp_all [pyMain, dictUpdate, socketHostUpdate, dictGet]
          · rcases me with _ | e1
            · rcases se with _ | e1
              · rcases be with _ | e1
                · simp_all [pyMain, dictUpdate, socketHostUpdate, dictGet]
                · simp_all [pyMain, dictUpdate, socketHostUpdate, dictGet]
              · simp_all [pyMain, dictUpdate, socketHostUpdate, dictGet]
            · simp_all [pyMain, dictUpdate, socketHostUpdate, dictGet]
      · simp_all [pyMain, dictUpdate, socketHostUpdate, dictGet]
    · simp_all [pyMain, dictUpdate, socketHostUpdate, dictGet]
  · simp_all [pyMain, dictUpdate, socketHostUpdate, dictGet]

theorem socket_host_is_all_interfaces_holds :
    envOK.configUpdateErr = none ∧
      dictGet (pyMain envOK).config "server.socket_host" = some "0.0.0.0" :=
  ⟨by decide, socket_host_is_all_interfaces envOK (by decide)⟩

/-- C7: once the wiring steps (config update, both constructions and the
attribute assignment) have succeeded, the `Root` object exists, its
`portfolio` slot is non-empty, and the attached `Portfolio` is an object
distinct from the `Root` itself (different identity). -/
theorem portfolio_attached_and_distinct (env : Env)
    (h1 : env.configUpdateErr = none) (h2 : env.rootCtorErr = none)
    (h3 : env.portfolioCtorErr = none) (h4 : env.attachErr = none) :
    ∃ r pid, (pyMain env).root = some r ∧ r.portfolio = some pid ∧ pid ≠ r.id := by
  obtain ⟨st, ic, cu, rc, pc, att, me, se, be⟩ := env
  subst h1 h2 h3 h4
  refine ⟨⟨0, some 1⟩, 1, ?_, rfl, by decide⟩
  rcases hs : dictGet st "server" with _ | s
  · simp_all [pyMain]
  · rcases ha : dictGet s "app_config" with _ | c
    · simp_all [pyMain]
    · rcases me with _ | e1
      · rcases se with _ | e1
        · rcases be with _ | e1
          · simp_all [pyMain]
          · simp_all [pyMain]
        · simp_all [pyMain]
      · simp_all [pyMain]

theorem portfolio_attached_and_distinct_holds :
    envOK.configUpdateErr = none ∧
      (∃ r pid, (pyMain envOK).root = some r ∧ r.portfolio = some pid ∧ pid ≠ r.id) :=
  ⟨by decide,
    portfolio_attached_and_distinct envOK (by decide) (by decide) (by decide) (by decide)⟩

/-- C9: the global configuration update performed by the bootstrap only
touches the key "server.socket_host": for every other key (in particular
any port setting), the configuration after the run answers exactly as the
pre-existing configuration did. -/
theorem config_update_frame (env : Env) (k : String)
    (hk : k ≠ "server.socket_host") :
    dictGet (pyMain env).config k = dictGet env.initialConfig k := by
  obtain ⟨st, ic, cu, rc, pc, att, me, se, be⟩ := env
  have hk' : ¬("server.socket_host" = k) := fun h => hk h.symm
  rcases cu with _ | e1
  · rcases rc with _ | e1
    · rcases pc with _ | e1
      · rcases att with _ | e1
        · rcases hs : dictGet st "server" with _ | s
          · simp_all [pyMain, dictUpdate, socketHostUpdate, dictGet]
          · rcases ha : dictGet s "app_config" with _ | c
            · simp_all [pyMain, dictUpdate, socketHostUpdate, dictGet]
            · rcases me with _ | e1
              · rcases se with _ | e1
                · rcases be with _ | e1
                  · simp_all [pyMain, dictUpdate, socketHostUpdate, dictGet]
                  · simp_all [pyMain, dictUpdate, socketHostUpdate, dictGet]
                · simp_all [pyMain, dictUpdate, socketHostUpdate, dictGet]
              · simp_all [pyMain, dictUpdate, socketHostUpdate, dictGet]
        · simp_all [pyMain, dictUpdate, socketHostUpdate, dictGet]
      · simp_all [pyMain, dictUpdate, socketHostUpdate, dictGet]
    · simp_all [pyMain, dictUpdate, socketHostUpdate, dictGet]
  · simp_all [pyMain]

theorem config_update_frame_holds :
    "server.socket_port" ≠ "server.socket_host" ∧
      dictGet (pyMain envOK).config "server.socket_port" =
        dictGet envOK.initialConfig "server.socket_port" :=
  ⟨by decide, config_update_frame envOK "server.socket_port" (by decide)⟩

/-- C3: every successful run (one that ends blocked in the engine)
performs exactly the seven steps, in exactly the source order: config
update, `Root()` construction, `Portfolio()` construction, attachment of
the `Portfolio` to the `Root`, mount at "/" with the looked-up mount
configuration, engine start, and finally the blocking wait. -/
theorem successful_run_exact_steps (env : Env)
    (h : (pyMain env).outcome = Outcome.blocked) :
    ∃ cfg, (pyMain env).trace = fullTrace cfg := by
  obtain ⟨st, ic, cu, rc, pc, att, me, se, be⟩ := env
  rcases cu with _ | e1
  · rcases rc with _ | e1
    · rcases pc with _ | e1
      · rcases att with _ | e1
        · rcases hs : dictGet st "server" with _ | s
          · simp_all [pyMain]
          · rcases ha : dictGet s "app_config" with _ | c
            · simp_all [pyMain]
            · rcases me with _ | e1
              · rcases se with _ | e1
                · rcases be with _ | e1
                  · refine ⟨c, ?_⟩
                    simp_all [pyMain, fullTrace]
                  · simp_all [pyMain]
                · simp_all [pyMain]
              · simp_all [pyMain]
        · simp_all [pyMain]
      · simp_all [pyMain]
    · simp_all [pyMain]
  · simp_all [pyMain]

theorem successful_run_exact_steps_holds :
    (pyMain envOK).outcome = Outcome.blocked ∧
      ∃ cfg, (pyMain envOK).trace = fullTrace cfg :=
  ⟨by decide, successful_run_exact_steps envOK (by decide)⟩

/-- C4: in every run, any mount event in the trace is preceded (at a
strictly smaller trace index) by the attachment of the `Portfolio` to the
`Root`: the mounted `Root` is never in the "unattached" state. -/
theorem attach_precedes_mount (env : Env) (rid : Nat) (p : String) (cfg : MountConfig)
    (h : Event.mount rid p cfg ∈ (pyMain env).trace) :
    ∃ i j, i < j ∧
      (pyMain env).trace.get? i = some (Event.attachPortfolio 0 1) ∧
      (pyMain env).trace.get? j = some (Event.mount rid p cfg) := by
  obtain ⟨st, ic, cu, rc, pc, att, me, se, be⟩ := env
  rcases cu with _ | e1
  · rcases rc with _ | e1
    · rcases pc with _ | e1
      · rcases att with _ | e1
        · rcases hs : dictGet st "server" with _ | s
          · simp_all [pyMain]
          · rcases ha : dictGet s "app_config" with _ | c
            · simp_all [pyMain]
            · rcases me with _ | e1
              · rcases se with _ | e1
                · rcases be with _ | e1
                  · simp_all [pyMain]
                    obtain ⟨h1, h2, h3⟩ := h
                    subst h1 h2 h3
                    exact ⟨3, 4, by norm_num, rfl, rfl⟩
                  · simp_all [pyMain]
                    obtain ⟨h1, h2, h3⟩ := h
                    subst h1 h2 h3
                    exact ⟨3, 4, by norm_num, rfl, rfl⟩
                · simp_all [pyMain]
                  obtain ⟨h1, h2, h3⟩ := h
                  subst h1 h2 h3
                  exact ⟨3, 4, by norm_num, rfl, rfl⟩
              · simp_all [pyMain]
                obtain ⟨h1, h2, h3⟩ := h
                subst h1 h2 h3
                exact ⟨3, 4, by norm_num, rfl, rfl⟩
        · simp_all [pyMain]
      · simp_all [pyMain]
    · simp_all [pyMain]
  · simp_all [pyMain]

theorem attach_precedes_mount_holds :
    Event.mount 0 "/" 7 ∈ (pyMain envOK).trace ∧
      ∃ i j, i < j ∧
        (pyMain envOK).trace.get? i = some (Event.attachPortfolio 0 1) ∧
        (pyMain envOK).trace.get? j = some (Event.mount 0 "/" 7) :=
  ⟨by decide, attach_precedes_mount envOK 0 "/" 7 (by decide)⟩

/-- C6: if the run reaches `cherrypy.engine.start()` and neither the start
nor the block call raises, then the run ends suspended in the blocking
wait (it never returns) and the block event is the very last step of the
trace — no statement of `main` executes after it. -/
theorem success_never_returns (env : Env)
    (h1 : env.startErr = none) (h2 : env.blockErr = none)
    (h3 : Event.engineStart ∈ (pyMain env).trace) :
    (pyMain env).outcome = Outcome.blocked ∧
      ∃ t, (pyMain env).trace = t ++ [Event.engineBlock] := by
  obtain ⟨st, ic, cu, rc, pc, att, me, se, be⟩ := env
  subst h1 h2
  rcases cu with _ | e1
  · rcases rc with _ | e1
    · rcases pc with _ | e1
      · rcases att with _ | e1
        · rcases hs : dictGet st "server" with _ | s
          · simp_all [pyMain]
          · rcases ha : dictGet s "app_config" with _ | c
            · simp_all [pyMain]
            · rcases me with _ | e1
              · constructor
                · simp_all [pyMain]
                · refine ⟨[Event.configUpdate socketHostUpdate, Event.constructRoot 0,
                    Event.constructPortfolio 1, Event.attachPortfolio 0 1,
                    Event.mount 0 "/" c, Event.engineStart], ?_⟩
                  simp_all [pyMain]
              · simp_all [pyMain]
        · simp_all [pyMain]
      · simp_all [pyMain]
    · simp_all [pyMain]
  · simp_all [pyMain]

theorem success_never_returns_holds :
    envOK.startErr = none ∧ envOK.blockErr = none ∧
      Event.engineStart ∈ (pyMain envOK).trace ∧
      ((pyMain envOK).outcome = Outcome.blocked ∧
        ∃ t, (pyMain envOK).trace = t ++ [Event.engineBlock]) :=
  ⟨by decide, by decide, by decide,
    success_never_returns envOK (by decide) (by decide) (by decide)⟩

/-- C8: every successful run mounts exactly one handler tree: the filtered
mount events of the trace are exactly one mount, of the `Root` object, at
path "/", with the mount configuration `SETTINGS["server"]["app_config"]`;
no other path is mounted. -/
theorem mount_exactly_once_at_root (env : Env)
    (h : (pyMain env).outcome = Outcome.blocked) :
    ∃ s cfg, dictGet env.settings "server" = some s ∧
      dictGet s "app_config" = some cfg ∧
      (pyMain env).trace.filter isMountEvent = [Event.mount 0 "/" cfg] := by
  obtain ⟨st, ic, cu, rc, pc, att, me, se, be⟩ := env
  rcases cu with _ | e1
  · rcases rc with _ | e1
    · rcases pc with _ | e1
      · rcases att with _ | e1
        · rcases hs : dictGet st "server" with _ | s
          · simp_all [pyMain]
          · rcases ha : dictGet s "app_config" with _ | c
            · simp_all [pyMain]
            · rcases me with _ | e1
              · rcases se with _ | e1
                · rcases be with _ | e1
                  · refine ⟨s, c, rfl, ha, ?_⟩
                    simp_all [pyMain, isMountEvent]
                  · simp_all [pyMain]
                · simp_all [pyMain]
              · simp_all [pyMain]
        · simp_all [pyMain]
      · simp_all [pyMain]
    · simp_all [pyMain]
  · simp_all [pyMain]

theorem mount_exactly_once_at_root_holds :
    (pyMain envOK).outcome = Outcome.blocked ∧
      ∃ s cfg, dictGet envOK.settings "server" = some s ∧
        dictGet s "app_config" = some cfg ∧
        (pyMain envOK).trace.filter isMountEvent = [Event.mount 0 "/" cfg] :=
  ⟨by decide, mount_exactly_once_at_root envOK (by decide)⟩

/-- C10: `main` installs no exception handler: whenever a run raises, the
surfaced exception is exactly the one produced by the first failing step
(in statement order), and the trace is a cut-off initial part of the full
step sequence — none of the steps after the failing one is attempted. -/
theorem exception_propagates_unchanged (env : Env) (e : Err)
    (h : (pyMain env).outcome = Outcome.raised e) :
    firstFailure env = some e ∧
      ∃ n cfg, (pyMain env).trace = (fullTrace cfg).take n := by
  obtain ⟨st, ic, cu, rc, pc, att, me, se, be⟩ := env
  rcases cu with _ | e1
  · rcases rc with _ | e1
    · rcases pc with _ | e1
      · rcases att with _ | e1
        · rcases hs : dictGet st "server" with _ | s
          · refine ⟨?_, 4, 0, ?_⟩ <;> simp_all [pyMain, firstFailure, fullTrace]
          · rcases ha : dictGet s "app_config" with _ | c
            · refine ⟨?_, 4, 0, ?_⟩ <;> simp_all [pyMain, firstFailure, fullTrace]
            · rcases me with _ | e1
              · rcases se with _ | e1
                · rcases be with _ | e1
                  · simp_all [pyMain]
                  · refine ⟨?_, 7, c, ?_⟩ <;> simp_all [pyMain, firstFailure, fullTrace]
                · refine ⟨?_, 6, c, ?_⟩ <;> simp_all [pyMain, firstFailure, fullTrace]
              · refine ⟨?_, 5, c, ?_⟩ <;> simp_all [pyMain, firstFailure, fullTrace]
        · refine ⟨?_, 4, 0, ?_⟩ <;> simp_all [pyMain, firstFailure, fullTrace]
      · refine ⟨?_, 3, 0, ?_⟩ <;> simp_all [pyMain, firstFailure, fullTrace]
    · refine ⟨?_, 2, 0, ?_⟩ <;> simp_all [pyMain, firstFailure, fullTrace]
  · refine ⟨?_, 1, 0, ?_⟩ <;> simp_all [pyMain, firstFailure, fullTrace]

theorem exception_propagates_unchanged_holds :
    (pyMain envStartFail).outcome = Outcome.raised (Err.extError "bind failed") ∧
      (firstFailure envStartFail = some (Err.extError "bind failed") ∧
        ∃ n cfg, (pyMain envStartFail).trace = (fullTrace cfg).take n) :=
  ⟨by decide,
    exception_propagates_unchanged envStartFail (Err.extError "bind failed") (by decide)⟩

end Bootstrap
